import Mathlib

/-!
Verification development for the `tool_calling` repository.

The repository sends code to an LLM provider and normalizes the provider's
reply into a fixed result shape.  The logic under verification is the
response-extraction code:

* `src/code_review_without_function.py`, `get_code_review` (the free-text /
  Azure variant): strip markdown code fences from the reply, `json.loads`
  the remainder, and wrap the outcome as `{"response": ...}` on success or
  `{"error": "Error decoding JSON response", "raw_response": ...}` on a
  decode failure.
* `src/code_review_with_function.py`, `review_code` (the structured /
  Gemini variant): if the reply carries a function call named
  `code_review`, `json.loads` its argument blob and wrap it as
  `{"response": ...}`; otherwise report `{"error": ...}`.
* `src/multi_function_calling.py`, `analyze_code_auto` (the multi-function
  variant): dispatch on `function_call` / `tool_calls` and wrap results
  together with bookkeeping keys.

Python strings are modelled as `List Char` (Python `str` is a sequence of
code points).  JSON documents are modelled by the inductive `Json` below;
numbers are represented exactly as rationals (Python distinguishes `int`
from `float` and uses IEEE doubles for the latter; every claim below
involves only small integer values, where the two semantics agree).
-/

/-- JSON values as produced by Python's `json.loads`: `null`, booleans,
numbers, strings, arrays, and objects (ordered key/value pairs with unique
keys, later duplicates overwriting earlier ones as in a Python `dict`). -/
inductive Json where
  | null
  | bool (b : Bool)
  | num (q : ℚ)
  | str (s : String)
  | arr (elems : List Json)
  | obj (members : List (String × Json))

/-- First-match association lookup on an object's member list.  Member
lists built by the parser have unique keys (duplicates are collapsed,
last value wins, as in a Python `dict`), so first match is the match. -/
def lookupStr : List (String × Json) → String → Option Json
  | [], _ => none
  | (k', v) :: rest, k => if k' = k then some v else lookupStr rest k

/-- Field access on a JSON object (Python `d[k]` / `d.get(k)`); `none` on
non-objects and missing keys. -/
def Json.getField : Json → String → Option Json
  | .obj kvs, k => lookupStr kvs k
  | _, _ => none

/-- The top-level keys of a JSON object, in order (Python `dict` preserves
insertion order, which `json.dumps` also uses); `[]` on non-objects. -/
def Json.topKeys : Json → List String
  | .obj kvs => kvs.map (fun p => p.1)
  | _ => []

/-- `dict` insertion semantics: a repeated key keeps its original position
and takes the new value; a fresh key is appended. -/
def insertKV : List (String × Json) → String → Json → List (String × Json)
  | [], k, v => [(k, v)]
  | (k', v') :: rest, k, v =>
    if k' = k then (k', v) :: rest else (k', v') :: insertKV rest k v

/-- `hasPre p s` is true when the char list `p` is an initial segment of
`s` (Python `str.startswith`). -/
def hasPre : List Char → List Char → Bool
  | [], _ => true
  | _ :: _, [] => false
  | p :: ps, c :: cs => (p == c) && hasPre ps cs

/-- Whitespace skipped by Python's `json` module between tokens
(space, tab, newline, carriage return). -/
def skipWs : List Char → List Char
  | c :: cs =>
    if c = ' ' ∨ c = '\t' ∨ c = '\n' ∨ c = '\r' then skipWs cs else c :: cs
  | [] => []

/-- Hexadecimal digit value, for `\uXXXX` escapes. -/
def hexVal (c : Char) : Option Nat :=
  if c.isDigit then some (c.toNat - 48)
  else if 'a' ≤ c ∧ c ≤ 'f' then some (c.toNat - 87)
  else if 'A' ≤ c ∧ c ≤ 'F' then some (c.toNat - 55)
  else none

/-- The single-character string escapes of JSON. -/
def escapeChar (e : Char) : Option Char :=
  if e = '"' then some '"'
  else if e = '\\' then some '\\'
  else if e = '/' then some '/'
  else if e = 'b' then some '\x08'
  else if e = 'f' then some '\x0c'
  else if e = 'n' then some '\n'
  else if e = 'r' then some '\r'
  else if e = 't' then some '\t'
  else none

/-- Body of a JSON string, after the opening quote: returns the decoded
characters and the remainder after the closing quote.  As in Python's
strict decoder, an unescaped control character (code point below 32, e.g.
a raw newline inside a string) is a parse error.  (`\uXXXX` is decoded to
the corresponding code point; Python's pairing of surrogate escapes is not
modelled, and no input below uses `\u`.) -/
def parseStringBody (cs : List Char) : Option (List Char × List Char) :=
  match cs with
  | [] => none
  | c :: rest =>
    if c = '"' then some ([], rest)
    else if c = '\\' then
      match rest with
      | [] => none
      | e :: rest2 =>
        if e = 'u' then
          match rest2 with
          | h1 :: h2 :: h3 :: h4 :: rest3 =>
            match hexVal h1, hexVal h2, hexVal h3, hexVal h4 with
            | some a, some b, some c2, some d =>
              match parseStringBody rest3 with
              | some (s, r) => some (Char.ofNat (((a * 16 + b) * 16 + c2) * 16 + d) :: s, r)
              | none => none
            | _, _, _, _ => none
          | _ => none
        else
          match escapeChar e with
          | some ch =>
            match parseStringBody rest2 with
            | some (s, r) => some (ch :: s, r)
            | none => none
          | none => none
    else if c.toNat < 32 then none
    else
      match parseStringBody rest with
      | some (s, r) => some (c :: s, r)
      | none => none

/-- Longest decimal-digit span at the head of the input. -/
def parseDigits (cs : List Char) : List Char × List Char :=
  match cs with
  | c :: rest =>
    if c.isDigit then
      let (d, r) := parseDigits rest
      (c :: d, r)
    else ([], cs)
  | [] => ([], [])

/-- Decimal value of a digit span. -/
def digitsToNat (ds : List Char) : Nat :=
  ds.foldl (fun a c => a * 10 + (c.toNat - 48)) 0

/-- The fractional part of a JSON number: a dot must be followed by at
least one digit; absence of a dot is an empty fraction. -/
def parseFrac (cs : List Char) : Option (List Char × List Char) :=
  match cs with
  | '.' :: r =>
    match parseDigits r with
    | ([], _) => none
    | (fds, rest) => some (fds, rest)
  | _ => some ([], cs)

/-- The exponent part of a JSON number: `e`/`E`, an optional sign, then at
least one digit; absence is a zero exponent. -/
def parseExp (cs : List Char) : Option (Bool × List Char × List Char) :=
  match cs with
  | c :: r =>
    if c = 'e' ∨ c = 'E' then
      let (en, r2) :=
        match r with
        | '-' :: rr => (true, rr)
        | '+' :: rr => (false, rr)
        | _ => (false, r)
      match parseDigits r2 with
      | ([], _) => none
      | (eds, rest) => some (en, eds, rest)
    else some (false, [], cs)
  | [] => some (false, [], [])

/-- Exact rational value of a JSON number from its parts: sign, integer
digits, fraction digits, exponent sign and exponent digits.  The value is
`±(i + fr / 10 ^ frLen) * 10 ^ ±e`, assembled as one quotient of
integers. -/
def ratOfParts (neg : Bool) (i : Nat) (fr : Nat) (frLen : Nat) (expNeg : Bool) (e : Nat) : ℚ :=
  let m : Int := Int.ofNat (i * 10 ^ frLen + fr)
  let sm : Int := if neg then -m else m
  if expNeg then mkRat sm (10 ^ (frLen + e))
  else mkRat (sm * Int.ofNat (10 ^ e)) (10 ^ frLen)

/-- A JSON number token: optional `-`; `0` or a nonzero-led digit span
(so `01` parses as `0` with `1` left over, as with Python's number regex);
optional fraction and exponent. -/
def parseNumber (cs : List Char) : Option (Json × List Char) :=
  let (neg, cs1) :=
    match cs with
    | '-' :: r => (true, r)
    | _ => (false, cs)
  match cs1 with
  | [] => none
  | c :: rest1 =>
    if c.isDigit then
      let (ids, cs2) := if c = '0' then ([c], rest1) else parseDigits cs1
      match parseFrac cs2 with
      | none => none
      | some (fds, cs3) =>
        match parseExp cs3 with
        | none => none
        | some (en, eds, cs4) =>
          some (.num (ratOfParts neg (digitsToNat ids) (digitsToNat fds) fds.length en (digitsToNat eds)), cs4)
    else none

mutual

/-- A JSON value at the head of the (already whitespace-skipped) input.
Fueled recursive descent; the fuel chosen in `loads` dominates the
recursion depth.  (Python's non-standard acceptance of `NaN`/`Infinity`
is not modelled; no input below uses them.) -/
def parseValue (fuel : Nat) (cs : List Char) : Option (Json × List Char) :=
  match fuel with
  | 0 => none
  | f + 1 =>
    match cs with
    | [] => none
    | c :: rest =>
      if c = '\x7b' then
        match skipWs rest with
        | '\x7d' :: r => some (.obj [], r)
        | r =>
          match parseMembers f [] r with
          | some (kvs, r2) => some (.obj kvs, r2)
          | none => none
      else if c = '[' then
        match skipWs rest with
        | ']' :: r => some (.arr [], r)
        | r =>
          match parseElems f [] r with
          | some (xs, r2) => some (.arr xs, r2)
          | none => none
      else if c = '"' then
        match parseStringBody rest with
        | some (scs, r) => some (.str (String.mk scs), r)
        | none => none
      else if hasPre "true".toList cs then some (.bool true, cs.drop 4)
      else if hasPre "false".toList cs then some (.bool false, cs.drop 5)
      else if hasPre "null".toList cs then some (.null, cs.drop 4)
      else parseNumber cs

/-- The members of a JSON object after `\x7b` (at least one member):
`"key" : value`, separated by commas, closed by `\x7d`. -/
def parseMembers (fuel : Nat) (acc : List (String × Json)) (cs : List Char) :
    Option (List (String × Json) × List Char) :=
  match fuel with
  | 0 => none
  | f + 1 =>
    match cs with
    | '"' :: rest =>
      match parseStringBody rest with
      | some (kcs, r1) =>
        match skipWs r1 with
        | ':' :: r2 =>
          match parseValue f (skipWs r2) with
          | some (v, r3) =>
            match skipWs r3 with
            | ',' :: r4 => parseMembers f (insertKV acc (String.mk kcs) v) (skipWs r4)
            | '\x7d' :: r4 => some (insertKV acc (String.mk kcs) v, r4)
            | _ => none
          | none => none
        | _ => none
      | none => none
    | _ => none

/-- The elements of a JSON array after `[` (at least one element),
separated by commas, closed by `]`. -/
def parseElems (fuel : Nat) (acc : List Json) (cs : List Char) :
    Option (List Json × List Char) :=
  match fuel with
  | 0 => none
  | f + 1 =>
    match parseValue f cs with
    | some (v, r1) =>
      match skipWs r1 with
      | ',' :: r2 => parseElems f (acc ++ [v]) (skipWs r2)
      | ']' :: r2 => some (acc ++ [v], r2)
      | _ => none
    | none => none

end

/-- Model of Python `json.loads`: skip surrounding whitespace, parse one
JSON value, and require that nothing but whitespace remains (Python raises
`Extra data` otherwise).  `none` models a raised `json.JSONDecodeError`. -/
def loads (cs : List Char) : Option Json :=
  let s := skipWs cs
  match parseValue (2 * cs.length + 2) s with
  | some (j, rest) => if (skipWs rest).isEmpty then some j else none
  | none => none

/-! ## The free-text (Azure) variant: `get_code_review` -/

/-- Whitespace stripped by Python `str.strip()` (the ASCII whitespace
characters; the claims use only ASCII input, so the additional Unicode
spaces Python would also strip never occur). -/
def pyIsSpace (c : Char) : Bool :=
  c = ' ' || c = '\t' || c = '\n' || c = '\r' || c = '\x0b' || c = '\x0c'

/-- Python `content.strip()`: remove leading and trailing whitespace. -/
def pyStrip (l : List Char) : List Char :=
  ((l.dropWhile pyIsSpace).reverse.dropWhile pyIsSpace).reverse

/-- The fence-marker removal of `get_code_review`
(src/code_review_without_function.py lines 78-82): if the content starts
with a ```` ```json ```` marker take `content[7:-3]`, else if it starts
with a bare ```` ``` ```` marker take `content[3:-3]`, else leave it
unchanged.  Python's slice `content[a:-3]` keeps the characters with
index `a <= i < len - 3`, here `(content.drop a).take (content.length -
(a + 3))` with saturating subtraction. -/
def strip_markdown (content : List Char) : List Char :=
  if hasPre "```json".toList content then (content.drop 7).take (content.length - 10)
  else if hasPre "```".toList content then (content.drop 3).take (content.length - 6)
  else content

/-- `content = response.content.strip()` followed by the fence-marker
removal (src/code_review_without_function.py lines 77-82). -/
def extract_content (raw : List Char) : List Char :=
  strip_markdown (pyStrip raw)

/-- The extraction part of `get_code_review`
(src/code_review_without_function.py lines 74-95): strip and de-fence the
reply text, `json.loads` it, and return `{"response": parsed}` on
success or `{"error": "Error decoding JSON response", "raw_response":
content}` when `json.loads` raises.  (The function's two remaining
returns concern a reply object without a `content` attribute and
provider-call exceptions, which lie outside the extraction of a reply
text.) -/
def get_code_review (raw : List Char) : Json :=
  match loads (extract_content raw) with
  | some j => Json.obj [("response", j)]
  | none =>
    Json.obj [("error", Json.str "Error decoding JSON response"),
              ("raw_response", Json.str (String.mk (extract_content raw)))]

/-! ## The structured (Gemini) variant: `review_code` -/

/-- A provider function call: `response.additional_kwargs["function_call"]`,
with its `name` and its `arguments` JSON blob (a string). -/
structure FunctionCall where
  name : String
  arguments : List Char

/-- Outcome of `review_code`'s response handling
(src/code_review_with_function.py lines 175-193), with the wire value it
is formatted to:
* `success j` — `format_response({"response": j})`;
* `decodeError args` — `json.loads(args)` raised, the surrounding
  `except` returns `format_response({"error": "Error in code review: "
  + str(e)})` (the exception text is provider-formatted and not
  modelled);
* `noValidCall` — `format_response({"error": "No valid review result
  found"})`. -/
inductive ReviewOutcome where
  | success (result : Json)
  | decodeError (arguments : List Char)
  | noValidCall

/-- The response handling of `review_code`
(src/code_review_with_function.py lines 175-193): if the reply carries a
function call named `code_review`, parse its arguments with `json.loads`
and return the parsed result as success; any other reply yields the
no-valid-result error. -/
def review_code (function_call : Option FunctionCall) : ReviewOutcome :=
  match function_call with
  | some fc =>
    if fc.name = "code_review" then
      match loads fc.arguments with
      | some j => .success j
      | none => .decodeError fc.arguments
    else .noValidCall
  | none => .noValidCall

/-- Top-level keys of the JSON document `review_code` serializes for each
outcome (src/code_review_with_function.py lines 180-193). -/
def reviewWireKeys : ReviewOutcome → List String
  | .success _ => ["response"]
  | .decodeError _ => ["error"]
  | .noValidCall => ["error"]

/-! ## The multi-function variant: `analyze_code_auto` -/

/-- One entry of `response.tool_calls`: its `name` and its
already-structured `args` (the code reads `tool_call.get("args")`
without any further parsing). -/
structure ToolCall where
  name : String
  args : Json

/-- The part of the provider reply `analyze_code_auto` dispatches on:
`additional_kwargs.get("function_call")` (absent or falsy modelled as
`none`) and `tool_calls` (absent or falsy modelled as `[]`). -/
structure MultiResponse where
  function_call : Option FunctionCall
  tool_calls : List ToolCall

/-- Outcome of `analyze_code_auto`'s response handling
(src/multi_function_calling.py lines 169-208), with the wire value it is
formatted to:
* `singleCall name j` — `{"response": j, "function_called": name,
  "parsing_required": false, "automatic_intent_detection": true}`;
* `singleDecodeError name args` — `json.loads(args)` raised, the
  surrounding `except` returns `{"error": "Error in code analysis: " +
  str(e), "automatic_intent_detection": true, "parsing_failed": true}`;
* `toolCalls review explanation` — `{"response": {"review": review,
  "explanation": explanation}, "function_called": "both",
  "parsing_required": false, "automatic_intent_detection": true}` with
  `None` serialized as `null`;
* `noValid` — `{"error": "No valid analysis result found",
  "automatic_intent_detection": true, "parsing_failed": true}`. -/
inductive MultiOutcome where
  | singleCall (name : String) (result : Json)
  | singleDecodeError (name : String) (arguments : List Char)
  | toolCalls (review : Option Json) (explanation : Option Json)
  | noValid

/-- One step of the `for tool_call in response.tool_calls` loop
(src/multi_function_calling.py lines 185-191): a call named
`code_review` sets the review slot, one named `code_explanation` sets
the explanation slot, and any other name leaves both unchanged. -/
def toolStep (acc : Option Json × Option Json) (tc : ToolCall) : Option Json × Option Json :=
  if tc.name = "code_review" then (some tc.args, acc.2)
  else if tc.name = "code_explanation" then (acc.1, some tc.args)
  else acc

/-- The response handling of `analyze_code_auto`
(src/multi_function_calling.py lines 169-208): a present `function_call`
is parsed with `json.loads`; otherwise a non-empty `tool_calls` list is
folded by name into the review/explanation slots (starting from
`None`/`None`); otherwise the no-valid-result error is returned. -/
def analyze_code_auto (r : MultiResponse) : MultiOutcome :=
  match r.function_call with
  | some fc =>
    match loads fc.arguments with
    | some j => .singleCall fc.name j
    | none => .singleDecodeError fc.name fc.arguments
  | none =>
    match r.tool_calls with
    | [] => .noValid
    | t :: ts =>
      let acc := (t :: ts).foldl toolStep (none, none)
      .toolCalls acc.1 acc.2

/-- Top-level keys of the JSON document `analyze_code_auto` serializes
for each outcome (src/multi_function_calling.py lines 173-208). -/
def multiWireKeys : MultiOutcome → List String
  | .singleCall _ _ => ["response", "function_called", "parsing_required", "automatic_intent_detection"]
  | .singleDecodeError _ _ => ["error", "automatic_intent_detection", "parsing_failed"]
  | .toolCalls _ _ => ["response", "function_called", "parsing_required", "automatic_intent_detection"]
  | .noValid => ["error", "automatic_intent_detection", "parsing_failed"]

/-- Python `None` serializes to JSON `null`. -/
def optJson : Option Json → Json
  | none => .null
  | some j => j

/-- The full wire document of the `tool_calls` branch of
`analyze_code_auto` (src/multi_function_calling.py lines 194-201). -/
def multiToolCallsWire (review explanation : Option Json) : Json :=
  Json.obj [("response", Json.obj [("review", optJson review), ("explanation", optJson explanation)]),
            ("function_called", Json.str "both"),
            ("parsing_required", Json.bool false),
            ("automatic_intent_detection", Json.bool true)]

/-! ## The declared schema and its validation predicates

`code_review_function` (src/code_review_with_function.py lines 23-123)
declares the result shape the provider is asked for: six required
top-level fields, three arrays of issue records, one array of
documentation records, a numeric score and a string of refactored code.
The predicates below state conformance to that declaration; none of the
repository's code paths ever evaluates such a check. -/

/-- Schema kind `string`. -/
def isStrJson : Json → Bool
  | .str _ => true
  | _ => false

/-- Schema kind `number`. -/
def isNumJson : Json → Bool
  | .num _ => true
  | _ => false

/-- Schema kind `integer` (a whole-valued number). -/
def isIntJson : Json → Bool
  | .num q => q.den == 1
  | _ => false

/-- The field `k` is present and its value satisfies `p`. -/
def getFieldB (j : Json) (k : String) (p : Json → Bool) : Bool :=
  match j.getField k with
  | some v => p v
  | none => false

/-- Schema kind array-of-`p`. -/
def isArrayOf (p : Json → Bool) : Json → Bool
  | .arr xs => xs.all p
  | _ => false

/-- An issue record per the declared schema: required `issueType` and
`description` strings and a required integer `criticalityLevel`. -/
def isIssueRecord (j : Json) : Bool :=
  getFieldB j "issueType" isStrJson && getFieldB j "description" isStrJson
    && getFieldB j "criticalityLevel" isIntJson

/-- A documentation record per the declared schema: a required
`issueDescription` string. -/
def isDocRecord (j : Json) : Bool :=
  getFieldB j "issueDescription" isStrJson

/-- Conformance to the declared `code_review` schema: all six required
top-level fields present with their declared kinds. -/
def conformsReviewSchema (j : Json) : Bool :=
  getFieldB j "codeIssues" (isArrayOf isIssueRecord)
    && getFieldB j "securityVulnerabilityIssues" (isArrayOf isIssueRecord)
    && getFieldB j "engineeringPracticesIssues" (isArrayOf isIssueRecord)
    && getFieldB j "documentationIssues" (isArrayOf isDocRecord)
    && getFieldB j "reviewScore" isNumJson
    && getFieldB j "refactoredCode" isStrJson

/-- Modelled from the spec: the invariant that a `criticalityLevel`, when
present on a record, is an integer within the declared bound `[0, 5]`
(the bound appears only in the schema's prose descriptions, never as a
machine constraint). -/
def criticalityOk (rec : Json) : Bool :=
  match rec.getField "criticalityLevel" with
  | some (.num q) => q.den == 1 && decide (0 ≤ q.num) && decide (q.num ≤ 5)
  | some _ => false
  | none => true

/-- Modelled from the spec: every record of the three issue categories
has its `criticalityLevel` (if any) an integer in `[0, 5]`. -/
def allCriticalitiesInRange (j : Json) : Bool :=
  ["codeIssues", "securityVulnerabilityIssues", "engineeringPracticesIssues"].all fun k =>
    match j.getField k with
    | some (.arr xs) => xs.all criticalityOk
    | _ => true

/-! ## Concrete documents used by the claims -/

set_option maxRecDepth 8000

/-- Scenario A of the spec: a valid JSON document with all-empty issue
arrays, `reviewScore` 80 and `refactoredCode` `x=1`. -/
def scenarioA : List Char :=
  "\x7b\"codeIssues\":[],\"securityVulnerabilityIssues\":[],\"engineeringPracticesIssues\":[],\"documentationIssues\":[],\"reviewScore\":80,\"refactoredCode\":\"x=1\"\x7d".toList

/-- The parse of `scenarioA`. -/
def scenarioAJson : Json :=
  Json.obj [("codeIssues", .arr []), ("securityVulnerabilityIssues", .arr []),
            ("engineeringPracticesIssues", .arr []), ("documentationIssues", .arr []),
            ("reviewScore", .num 80), ("refactoredCode", .str "x=1")]

/-- A document whose tail field `refactoredCode` contains an embedded
double-quote and an embedded literal newline, so the direct JSON parse
fails. -/
def tailNewlineDoc : List Char :=
  "\x7b\"codeIssues\":[],\"securityVulnerabilityIssues\":[],\"engineeringPracticesIssues\":[],\"documentationIssues\":[],\"reviewScore\":80,\"refactoredCode\":\"print(\"hi\")\nx=1\"\x7d".toList

/-- Scenario C of the spec: free text containing no brace at all. -/
def scenarioC : List Char :=
  "Sure, here is the review: I found no JSON today.".toList

/-- A document with a brace but malformed JSON. -/
def malformedDoc : List Char := "\x7boops".toList

/-- A bare number: contains no brace, yet is valid JSON. -/
def bareNumberDoc : List Char := "80".toList

/-- The empty JSON object: parses, but has none of the required fields. -/
def emptyObjDoc : List Char := "\x7b\x7d".toList

/-- A schema-conforming document except that one `criticalityLevel`
is 7, outside the spec's declared bound `[0, 5]`. -/
def outOfRangeDoc : List Char :=
  "\x7b\"codeIssues\":[\x7b\"issueType\":\"t\",\"description\":\"d\",\"criticalityLevel\":7\x7d],\"securityVulnerabilityIssues\":[],\"engineeringPracticesIssues\":[],\"documentationIssues\":[],\"reviewScore\":80,\"refactoredCode\":\"x=1\"\x7d".toList

/-- The parse of `outOfRangeDoc`. -/
def outOfRangeJson : Json :=
  Json.obj [("codeIssues", .arr [.obj [("issueType", .str "t"), ("description", .str "d"),
              ("criticalityLevel", .num 7)]]),
            ("securityVulnerabilityIssues", .arr []), ("engineeringPracticesIssues", .arr []),
            ("documentationIssues", .arr []), ("reviewScore", .num 80),
            ("refactoredCode", .str "x=1")]

/-- A parsable document carrying only `reviewScore`: every issue
category is omitted. -/
def scoreOnlyDoc : List Char := "\x7b\"reviewScore\":80\x7d".toList

/-- A doubly fenced document: stripping it once yields a document that
itself begins with a fence marker. -/
def doubleFenceDoc : List Char := "```json```jsonAB```".toList

/-! ## Helper lemmas -/

/-- If a concatenation `p ++ q` is an initial segment of `s`, so is `p`. -/
theorem hasPre_append (p q s : List Char) (h : hasPre (p ++ q) s = true) :
    hasPre p s = true := by
  induction p generalizing s with
  | nil => rfl
  | cons a as ih =>
    cases s with
    | nil => exact absurd h (by simp [hasPre])
    | cons b bs =>
      simp only [List.cons_append, hasPre, Bool.and_eq_true] at h ⊢
      exact ⟨h.1, ih bs h.2⟩

/-- Any list is an initial segment of itself followed by anything. -/
theorem hasPre_self_append (p s : List Char) : hasPre p (p ++ s) = true := by
  induction p with
  | nil => rfl
  | cons a as ih => simp [hasPre, ih]

/-- A successful `json.loads` makes `get_code_review` wrap the parsed
value under the `response` key. -/
theorem get_code_review_some (raw : List Char) (j : Json)
    (h : loads (extract_content raw) = some j) :
    get_code_review raw = Json.obj [("response", j)] := by
  simp [get_code_review, h]

/-- A failing `json.loads` makes `get_code_review` return the generic
decode-error payload carrying the stripped content. -/
theorem get_code_review_none (raw : List Char)
    (h : loads (extract_content raw) = none) :
    get_code_review raw
      = Json.obj [("error", Json.str "Error decoding JSON response"),
                  ("raw_response", Json.str (String.mk (extract_content raw)))] := by
  simp [get_code_review, h]

/-- A `code_review`-named function call whose arguments parse is wrapped
as a success by `review_code`. -/
theorem review_code_success (args : List Char) (j : Json)
    (h : loads args = some j) :
    review_code (some ⟨"code_review", args⟩) = .success j := by
  simp [review_code, h]

/-- Folding the tool-call loop over calls none of which is named
`code_review` or `code_explanation` leaves the accumulator unchanged. -/
theorem toolStep_fold_unrecognized (l : List ToolCall) (acc : Option Json × Option Json)
    (h : ∀ tc ∈ l, tc.name ≠ "code_review" ∧ tc.name ≠ "code_explanation") :
    l.foldl toolStep acc = acc := by
  induction l generalizing acc with
  | nil => rfl
  | cons a as ih =>
    have ha := h a (List.mem_cons_self a as)
    have hstep : toolStep acc a = acc := by simp [toolStep, ha.1, ha.2]
    rw [List.foldl_cons, hstep]
    exact ih acc (fun tc htc => h tc (List.mem_cons_of_mem a htc))

/-! ## Claim C1 -/

/-- Claim C1: for every raw argument blob that is a valid JSON document
conforming to the declared schema, the structured-call extraction
(`review_code` given a function call named `code_review`) returns
success with exactly the parsed value — a round trip with no
transformation of any field. -/
theorem structured_call_roundtrip (args : List Char) (j : Json)
    (h : loads args = some j) (_hconf : conformsReviewSchema j = true) :
    review_code (some ⟨"code_review", args⟩) = .success j := by
  simp [review_code, h]

/-- Claim C1 witness: Scenario A — the all-empty-issues document with
`reviewScore` 80 and `refactoredCode` `x=1` parses, conforms to the
schema, and round-trips to success; its score is 80 and all four issue
lists are empty. -/
theorem structured_call_roundtrip_witness :
    loads scenarioA = some scenarioAJson
    ∧ conformsReviewSchema scenarioAJson = true
    ∧ review_code (some ⟨"code_review", scenarioA⟩) = .success scenarioAJson
    ∧ scenarioAJson.getField "reviewScore" = some (.num 80)
    ∧ scenarioAJson.getField "codeIssues" = some (.arr [])
    ∧ scenarioAJson.getField "securityVulnerabilityIssues" = some (.arr [])
    ∧ scenarioAJson.getField "engineeringPracticesIssues" = some (.arr [])
    ∧ scenarioAJson.getField "documentationIssues" = some (.arr []) :=
  ⟨rfl, rfl, structured_call_roundtrip scenarioA scenarioAJson rfl rfl,
   rfl, rfl, rfl, rfl, rfl⟩

/-! ## Claim C2 -/

/-- Claim C2 counterexample: on a document whose tail field
`refactoredCode` contains an embedded literal newline and an embedded
double-quote, the direct JSON parse fails and the free-text extraction
does NOT fall back to any field-wise recovery: it returns the decode
failure, with no `response` key, instead of the claimed success. -/
theorem freetext_tail_recovery_cex :
    ('\n' ∈ tailNewlineDoc)
    ∧ loads (extract_content tailNewlineDoc) = none
    ∧ (get_code_review tailNewlineDoc).getField "response" = none
    ∧ get_code_review tailNewlineDoc
        = Json.obj [("error", Json.str "Error decoding JSON response"),
                    ("raw_response", Json.str (String.mk tailNewlineDoc))] :=
  ⟨by decide, rfl, rfl, rfl⟩

/-- Claim C2 amended: when the direct JSON parse of the fence-stripped
content fails (as it does when the tail field contains an embedded
literal newline or unescaped double-quote), the free-text extraction has
no recovery: it returns the payload
`{"error": "Error decoding JSON response", "raw_response": content}`
with the fence-stripped content preserved verbatim, never a success. -/
theorem freetext_parse_failure_no_recovery (raw : List Char)
    (h : loads (extract_content raw) = none) :
    get_code_review raw
      = Json.obj [("error", Json.str "Error decoding JSON response"),
                  ("raw_response", Json.str (String.mk (extract_content raw)))] := by
  simp [get_code_review, h]

/-- Claim C2 amended witness: the newline-and-quote tail document takes
the decode-failure branch with its content preserved in
`raw_response`. -/
theorem freetext_parse_failure_no_recovery_witness :
    loads (extract_content tailNewlineDoc) = none
    ∧ get_code_review tailNewlineDoc
        = Json.obj [("error", Json.str "Error decoding JSON response"),
                    ("raw_response", Json.str (String.mk (extract_content tailNewlineDoc)))] :=
  ⟨rfl, freetext_parse_failure_no_recovery tailNewlineDoc rfl⟩

/-! ## Claim C3 -/

/-- Claim C3 counterexample: the code has no `NoJsonFound` failure
distinct from the malformed-JSON one.  The Scenario C input (no brace
anywhere) produces exactly the same error value, `"Error decoding JSON
response"`, as a braced malformed input; and a brace-free input that
happens to be valid JSON (a bare number) even yields success rather than
any failure. -/
theorem no_json_found_cex :
    ('\x7b' ∉ scenarioC)
    ∧ get_code_review scenarioC
        = Json.obj [("error", Json.str "Error decoding JSON response"),
                    ("raw_response", Json.str (String.mk scenarioC))]
    ∧ get_code_review malformedDoc
        = Json.obj [("error", Json.str "Error decoding JSON response"),
                    ("raw_response", Json.str (String.mk malformedDoc))]
    ∧ ('\x7b' ∉ bareNumberDoc)
    ∧ get_code_review bareNumberDoc = Json.obj [("response", Json.num 80)] :=
  ⟨by decide, rfl, rfl, by decide, rfl⟩

/-- Claim C3 amended: the free-text extraction distinguishes no failure
reasons at all.  Every outcome is either a success wrapping whatever
JSON value the stripped content parses to (brace or no brace), or the
single generic failure `{"error": "Error decoding JSON response",
"raw_response": content}` — the same reason reported for malformed
JSON.  In particular Scenario C receives that generic failure, not a
distinct `NoJsonFound`. -/
theorem single_failure_reason (raw : List Char) :
    (∃ j, loads (extract_content raw) = some j
        ∧ get_code_review raw = Json.obj [("response", j)])
    ∨ get_code_review raw
        = Json.obj [("error", Json.str "Error decoding JSON response"),
                    ("raw_response", Json.str (String.mk (extract_content raw)))] := by
  cases hl : loads (extract_content raw) with
  | some j => exact Or.inl ⟨j, rfl, by simp [get_code_review, hl]⟩
  | none => exact Or.inr (by simp [get_code_review, hl])

/-! ## Claim C4 -/

/-- Claim C4 counterexample: the empty object parses but has none of the
six required fields, yet extraction returns success in both modes — no
`SchemaViolation` failure names the missing field, and no error key is
produced at all. -/
theorem missing_required_field_cex :
    conformsReviewSchema (Json.obj []) = false
    ∧ loads emptyObjDoc = some (Json.obj [])
    ∧ get_code_review emptyObjDoc = Json.obj [("response", Json.obj [])]
    ∧ review_code (some ⟨"code_review", emptyObjDoc⟩) = .success (Json.obj [])
    ∧ (get_code_review emptyObjDoc).getField "error" = none :=
  ⟨rfl, rfl, rfl, rfl, rfl⟩

/-- Claim C4 amended: neither mode performs any schema validation.  A
response that parses as JSON but violates the declared schema (for
instance by missing required top-level fields) is returned as a success
wrapping the parsed value unchanged, in both the free-text and the
structured-call mode. -/
theorem missing_required_field_passthrough (raw args : List Char) (j : Json)
    (h1 : loads (extract_content raw) = some j)
    (h2 : loads args = some j)
    (_hviol : conformsReviewSchema j = false) :
    get_code_review raw = Json.obj [("response", j)]
    ∧ review_code (some ⟨"code_review", args⟩) = .success j :=
  ⟨by simp [get_code_review, h1], by simp [review_code, h2]⟩

/-- Claim C4 amended witness: the empty object passes through as a
success in both modes. -/
theorem missing_required_field_passthrough_witness :
    conformsReviewSchema (Json.obj []) = false
    ∧ get_code_review emptyObjDoc = Json.obj [("response", Json.obj [])]
    ∧ review_code (some ⟨"code_review", emptyObjDoc⟩) = .success (Json.obj []) :=
  ⟨rfl, (missing_required_field_passthrough emptyObjDoc emptyObjDoc (Json.obj []) rfl rfl rfl).1,
   (missing_required_field_passthrough emptyObjDoc emptyObjDoc (Json.obj []) rfl rfl rfl).2⟩

/-! ## Claim C5 -/

/-- Claim C5 counterexample: a parsed response carrying an issue record
with `criticalityLevel` 7 — outside `[0, 5]` — is not rejected: both
modes return success, and the out-of-range value 7 sits unchanged
inside the success result. -/
theorem criticality_out_of_range_cex :
    allCriticalitiesInRange outOfRangeJson = false
    ∧ loads outOfRangeDoc = some outOfRangeJson
    ∧ get_code_review outOfRangeDoc = Json.obj [("response", outOfRangeJson)]
    ∧ review_code (some ⟨"code_review", outOfRangeDoc⟩) = .success outOfRangeJson
    ∧ outOfRangeJson.getField "codeIssues"
        = some (.arr [.obj [("issueType", .str "t"), ("description", .str "d"),
                            ("criticalityLevel", .num 7)]]) :=
  ⟨rfl, rfl, rfl, rfl, rfl⟩

/-- Claim C5 amended: `criticalityLevel` is never validated.  A parsed
response containing a criticality outside `[0, 5]` still yields success
in both modes, with the parsed value — out-of-range criticality
included — passed through unchanged (neither clamped nor rejected). -/
theorem criticality_out_of_range_passthrough (raw args : List Char) (j : Json)
    (h1 : loads (extract_content raw) = some j)
    (h2 : loads args = some j)
    (_hrange : allCriticalitiesInRange j = false) :
    get_code_review raw = Json.obj [("response", j)]
    ∧ review_code (some ⟨"code_review", args⟩) = .success j :=
  ⟨by simp [get_code_review, h1], by simp [review_code, h2]⟩

/-- Claim C5 amended witness: the criticality-7 document passes through
as success in both modes. -/
theorem criticality_out_of_range_passthrough_witness :
    allCriticalitiesInRange outOfRangeJson = false
    ∧ get_code_review outOfRangeDoc = Json.obj [("response", outOfRangeJson)]
    ∧ review_code (some ⟨"code_review", outOfRangeDoc⟩) = .success outOfRangeJson :=
  ⟨rfl,
   (criticality_out_of_range_passthrough outOfRangeDoc outOfRangeDoc outOfRangeJson rfl rfl rfl).1,
   (criticality_out_of_range_passthrough outOfRangeDoc outOfRangeDoc outOfRangeJson rfl rfl rfl).2⟩

/-! ## Claim C6 -/

/-- Claim C6 counterexample: a provider reply that omits every issue
category still yields success, and the omitted categories are absent
from the result — they are not defaulted to empty sequences. -/
theorem omitted_category_cex :
    get_code_review scoreOnlyDoc
      = Json.obj [("response", Json.obj [("reviewScore", Json.num 80)])]
    ∧ (Json.obj [("reviewScore", Json.num 80)]).getField "codeIssues" = none
    ∧ (Json.obj [("reviewScore", Json.num 80)]).getField "documentationIssues" = none :=
  ⟨rfl, rfl, rfl⟩

/-- Claim C6 amended: a success result contains exactly the fields the
provider's JSON contained.  Any field (in particular any issue category)
absent from the parsed document is equally absent from the wrapped
success result — no defaulting to empty sequences happens. -/
theorem omitted_category_stays_absent (raw : List Char) (j : Json) (k : String)
    (h1 : loads (extract_content raw) = some j)
    (h2 : j.getField k = none) :
    ∃ r, get_code_review raw = Json.obj [("response", r)] ∧ r.getField k = none :=
  ⟨j, by simp [get_code_review, h1], h2⟩

/-- Claim C6 amended witness: the score-only document succeeds with
`codeIssues` absent from the result. -/
theorem omitted_category_stays_absent_witness :
    loads (extract_content scoreOnlyDoc) = some (Json.obj [("reviewScore", Json.num 80)])
    ∧ ∃ r, get_code_review scoreOnlyDoc = Json.obj [("response", r)]
        ∧ r.getField "codeIssues" = none :=
  ⟨rfl, omitted_category_stays_absent scoreOnlyDoc (Json.obj [("reviewScore", Json.num 80)])
          "codeIssues" rfl rfl⟩

/-! ## Claim C7 -/

/-- Claim C7 counterexample: the multi-function wrapper does not produce
the claimed wire shape.  On a single recognized tool call its document's
keys are `response`, `function_called`, `parsing_required`,
`automatic_intent_detection` — the extra keys violate the shape
`{"response": ...}` / `{"error": ..., "raw_response"?: ...}`. -/
theorem wire_shape_multi_cex :
    multiWireKeys (analyze_code_auto ⟨none, [⟨"code_review", Json.obj []⟩]⟩)
      = ["response", "function_called", "parsing_required", "automatic_intent_detection"]
    ∧ multiWireKeys (analyze_code_auto ⟨none, [⟨"code_review", Json.obj []⟩]⟩) ≠ ["response"]
    ∧ "function_called" ∈ multiWireKeys (analyze_code_auto ⟨none, [⟨"code_review", Json.obj []⟩]⟩) :=
  ⟨by decide, by decide, by decide⟩

/-- Claim C7 amended: the Azure free-text wrapper and the Gemini
single-function wrapper keep the wire contract — their serialized
documents have exactly the keys `response` (success) or `error` with an
optional `raw_response` (failure) — but the multi-function wrapper does
not: every document it serializes additionally carries bookkeeping keys
(`function_called` and `parsing_required` on success,
`parsing_failed` on failure, and `automatic_intent_detection` always). -/
theorem wire_shapes_by_wrapper :
    (∀ raw : List Char, (get_code_review raw).topKeys = ["response"]
        ∨ (get_code_review raw).topKeys = ["error", "raw_response"])
    ∧ (∀ fc : Option FunctionCall, reviewWireKeys (review_code fc) = ["response"]
        ∨ reviewWireKeys (review_code fc) = ["error"])
    ∧ (∀ r : MultiResponse,
        multiWireKeys (analyze_code_auto r)
            = ["response", "function_called", "parsing_required", "automatic_intent_detection"]
        ∨ multiWireKeys (analyze_code_auto r)
            = ["error", "automatic_intent_detection", "parsing_failed"]) := by
  refine ⟨fun raw => ?_, fun fc => ?_, fun r => ?_⟩
  · cases hl : loads (extract_content raw) with
    | some j => exact Or.inl (by simp [get_code_review, hl, Json.topKeys])
    | none => exact Or.inr (by simp [get_code_review, hl, Json.topKeys])
  · cases review_code fc with
    | success _ => exact Or.inl rfl
    | decodeError _ => exact Or.inr rfl
    | noValidCall => exact Or.inr rfl
  · cases analyze_code_auto r with
    | singleCall _ _ => exact Or.inl rfl
    | singleDecodeError _ _ => exact Or.inr rfl
    | toolCalls _ _ => exact Or.inl rfl
    | noValid => exact Or.inr rfl

/-! ## Claim C8 -/

/-- Claim C8 counterexample: fence-stripping twice does not equal
stripping once on every input.  A stripped document can itself begin
with a fence marker, so the second application strips again. -/
theorem fence_strip_not_idempotent_cex :
    strip_markdown doubleFenceDoc = "```jsonAB".toList
    ∧ strip_markdown (strip_markdown doubleFenceDoc) = []
    ∧ strip_markdown (strip_markdown doubleFenceDoc) ≠ strip_markdown doubleFenceDoc :=
  ⟨rfl, rfl, by decide⟩

/-- Claim C8 amended: fence-stripping is a no-op on every document that
does not begin with a fence marker (so it is idempotent exactly on
inputs whose stripped output is again unfenced); full idempotence over
all inputs fails, because a stripped output can itself begin with a
fence marker. -/
theorem fence_strip_noop_on_unfenced (s : List Char)
    (h : hasPre "```".toList s = false) : strip_markdown s = s := by
  have h7 : hasPre "```json".toList s = false := by
    cases hc : hasPre "```json".toList s with
    | false => rfl
    | true =>
      have h3 : hasPre "```".toList s = true :=
        hasPre_append "```".toList "json".toList s (by exact hc)
      rw [h] at h3
      exact absurd h3 (by simp)
  unfold strip_markdown
  rw [h7, h]
  simp

/-- Claim C8 amended witness: an unfenced document is returned
unchanged. -/
theorem fence_strip_noop_on_unfenced_witness :
    hasPre "```".toList "hello".toList = false
    ∧ strip_markdown "hello".toList = "hello".toList :=
  ⟨rfl, fence_strip_noop_on_unfenced "hello".toList rfl⟩

/-! ## Claim C9 -/

/-- Claim C9: after a ```` ```json ```` (7 characters) or bare
```` ``` ```` (3 characters) fence marker is recognized, the code
removes that fixed prefix and unconditionally removes the last three
characters of the content — whether or not a closing fence is present.
A fenced response lacking a terminating fence therefore loses the final
three characters of its payload before JSON parsing.  (The hypothesis
only excludes payloads that would turn the bare fence into a
language-tagged one.) -/
theorem fence_strip_unconditional_tail_cut (t : List Char)
    (hj : hasPre "json".toList t = false) :
    strip_markdown ("```json".toList ++ t) = t.take (t.length - 3)
    ∧ strip_markdown ("```".toList ++ t) = t.take (t.length - 3) := by
  constructor
  · have h1 : hasPre "```json".toList ("```json".toList ++ t) = true :=
      hasPre_self_append "```json".toList t
    have hd : ("```json".toList ++ t).drop 7 = t := rfl
    have hlen : ("```json".toList ++ t).length = 7 + t.length := by simp; omega
    simp only [strip_markdown, h1, if_true, hd, hlen]
    congr 1
    omega
  · have h1 : hasPre "```json".toList ("```".toList ++ t) = false := by
      have he : hasPre "```json".toList ("```".toList ++ t) = hasPre "json".toList t := rfl
      rw [he, hj]
    have h2 : hasPre "```".toList ("```".toList ++ t) = true :=
      hasPre_self_append "```".toList t
    have hd : ("```".toList ++ t).drop 3 = t := rfl
    have hlen : ("```".toList ++ t).length = 3 + t.length := by simp; omega
    simp only [strip_markdown, h1, h2, if_true, Bool.false_eq_true, if_false, hd, hlen]
    congr 1
    omega

/-- Claim C9 witness: the unterminated fenced payload `abcde` comes out
as `ab` — its last three characters are gone — under both markers. -/
theorem fence_strip_unconditional_tail_cut_witness :
    hasPre "json".toList "abcde".toList = false
    ∧ strip_markdown ("```json".toList ++ "abcde".toList) = "ab".toList
    ∧ strip_markdown ("```".toList ++ "abcde".toList) = "ab".toList :=
  ⟨rfl,
   (fence_strip_unconditional_tail_cut "abcde".toList rfl).1.trans (by decide),
   (fence_strip_unconditional_tail_cut "abcde".toList rfl).2.trans (by decide)⟩

/-! ## Claim C10 -/

/-- Claim C10: when the reply has no `function_call`, carries a
non-empty `tool_calls` list, and none of the calls is named
`code_review` or `code_explanation`, the multi-function variant silently
ignores every call and returns the success-shaped tool-calls payload
whose response is `{"review": null, "explanation": null}` with
`function_called` set to `"both"` — not an error value. -/
theorem unrecognized_tool_calls_ignored (r : MultiResponse)
    (h1 : r.function_call = none)
    (h2 : r.tool_calls ≠ [])
    (h3 : ∀ tc ∈ r.tool_calls, tc.name ≠ "code_review" ∧ tc.name ≠ "code_explanation") :
    analyze_code_auto r = .toolCalls none none
    ∧ multiToolCallsWire none none
        = Json.obj [("response", Json.obj [("review", Json.null), ("explanation", Json.null)]),
                    ("function_called", Json.str "both"),
                    ("parsing_required", Json.bool false),
                    ("automatic_intent_detection", Json.bool true)]
    ∧ multiWireKeys (MultiOutcome.toolCalls none none)
        = ["response", "function_called", "parsing_required", "automatic_intent_detection"] := by
  refine ⟨?_, rfl, rfl⟩
  obtain ⟨fc, tcs⟩ := r
  simp only at h1 h3
  subst h1
  cases tcs with
  | nil => exact absurd rfl h2
  | cons t ts =>
    have hfold : (t :: ts).foldl toolStep (none, none) = ((none : Option Json), (none : Option Json)) :=
      toolStep_fold_unrecognized (t :: ts) (none, none) h3
    simp [analyze_code_auto, hfold]

/-- Claim C10 witness: a single unrecognized tool call named `weather`
yields the null/null tool-calls payload. -/
theorem unrecognized_tool_calls_ignored_witness :
    ((⟨none, [⟨"weather", Json.obj []⟩]⟩ : MultiResponse).tool_calls ≠ [])
    ∧ analyze_code_auto ⟨none, [⟨"weather", Json.obj []⟩]⟩ = .toolCalls none none := by
  refine ⟨by simp, ?_⟩
  refine (unrecognized_tool_calls_ignored ⟨none, [⟨"weather", Json.obj []⟩]⟩ rfl (by simp) ?_).1
  intro tc htc
  rw [show (⟨none, [⟨"weather", Json.obj []⟩]⟩ : MultiResponse).tool_calls
        = [⟨"weather", Json.obj []⟩] from rfl, List.mem_singleton] at htc
  subst htc
  exact ⟨by decide, by decide⟩
